import Mathlib

/-!
Shallow embedding of the ingestion/ranking backend
(`src/app/services/youtube_service.py`, `src/app/main.py`,
`src/app/feed_routes.py`) and proofs about it.

Modelling conventions:
  * Python `float` arithmetic is modelled exactly over `ℚ`.
  * Timestamps (`datetime`) are modelled as rational numbers of seconds;
    UTC dates are modelled as natural-number day indices.
  * MongoDB collections are modelled as Lean lists of records; `find_one`
    is first-match lookup and `update_one` rewrites the first matching
    record (the `api_key` field carries a unique index, see
    `src/app/database.py`).
  * `.sort(field, -1)` is modelled as a deterministic sort by descending
    key (`List.insertionSort`); every claim proved here either uses the
    same sort on both sides of an equality or is independent of the order
    of ties.
-/

/-- The daily quota budget checked by the credential selector
(`youtube_service.py`, line 57). -/
def QUOTA_LIMIT : Nat := 9500

/-- A normalized video record, as upserted by `_process_video_item`. -/
structure Video where
  video_id : String
  title : String
  description : String
  channel_id : String
  channel_title : String
  niche : String
  state : String
  language : String
  published_at : ℚ
  view_count : Nat
  like_count : Nat
  comment_count : Nat
  thumbnail_url : String
  is_short : Bool
  duration : String
  viral_score : ℚ
deriving Repr, DecidableEq

/-- The fixed state-to-primary-language table from
`calculate_viral_score` (`youtube_service.py`, line 164). -/
def state_lang_map : List (String × String) :=
  [("Maharashtra", "Marathi"), ("Tamil Nadu", "Tamil"),
   ("Andhra Pradesh", "Telugu"), ("Telangana", "Telugu"),
   ("Karnataka", "Kannada"), ("Kerala", "Malayalam"),
   ("West Bengal", "Bengali"), ("Gujarat", "Gujarati"),
   ("Punjab", "Punjabi")]

/-- `video_data.get("state") in state_lang_map and
video_data.get("language") == state_lang_map[video_data["state"]]`
(`youtube_service.py`, line 165). -/
def region_match (state language : String) : Bool :=
  match state_lang_map.lookup state with
  | some l => language == l
  | none => false

/-- The engagement ratio computed inside `calculate_viral_score`
(`youtube_service.py`, lines 157-159): `0` when the view count is zero,
`(likes + 2*comments) / views` otherwise. -/
def engagement_ratio (v : Video) : ℚ :=
  if 0 < v.view_count then
    ((v.like_count : ℚ) + (v.comment_count : ℚ) * 2) / (v.view_count : ℚ)
  else 0

/-- `YouTubeService.calculate_viral_score` (`youtube_service.py`,
lines 154-168), with `datetime.datetime.utcnow()` passed in as `now`
(seconds). -/
def calculate_viral_score (now : ℚ) (v : Video) : ℚ :=
  let age_hours := max ((now - v.published_at) / 3600) (1/10)
  let views_per_hour := (v.view_count : ℚ) / age_hours
  let score := views_per_hour * (1 + engagement_ratio v * 10)
  let score2 := if v.is_short then score * (3/2) else score
  if region_match v.state v.language then score2 * (6/5) else score2

/-- The textual short-video test from `_process_video_item`
(`youtube_service.py`, line 146): `"S" in duration and "M" not in
duration`, with Python single-character substring tests modelled as
character membership. -/
def short_heuristic (duration : String) : Bool :=
  duration.toList.contains 'S' && !(duration.toList.contains 'M')

/-- One item of a batch-detail response, as read by
`_process_video_item` (`youtube_service.py`, lines 122-149). -/
structure VideoItem where
  video_id : String
  title : String
  description : String
  channel_id : String
  channel_title : String
  published_at : ℚ
  view_count : Nat
  like_count : Nat
  comment_count : Nat
  thumbnail_url : String
  duration : String
deriving Repr, DecidableEq

/-- The video record built by `_process_video_item`
(`youtube_service.py`, lines 137-150): normalization plus the
short-video flag and the viral score. -/
def process_video_item (now : ℚ) (item : VideoItem)
    (niche state language : String) : Video :=
  let v : Video :=
    { video_id := item.video_id, title := item.title,
      description := item.description, channel_id := item.channel_id,
      channel_title := item.channel_title, niche := niche, state := state,
      language := language, published_at := item.published_at,
      view_count := item.view_count, like_count := item.like_count,
      comment_count := item.comment_count,
      thumbnail_url := item.thumbnail_url,
      is_short := short_heuristic item.duration, duration := item.duration,
      viral_score := 0 }
  { v with viral_score := calculate_viral_score now v }

/-- `videos_collection.find(query).sort("viral_score", -1)`: sort by
descending viral score. -/
def sort_by_score_desc (l : List Video) : List Video :=
  l.insertionSort (fun a b => b.viral_score ≤ a.viral_score)

/-- `videos_collection.find({}).sort("published_at", -1)`: sort by
descending publish time. -/
def sort_by_published_desc (l : List Video) : List Video :=
  l.insertionSort (fun a b => b.published_at ≤ a.published_at)

inductive ViralType where
  | GLOBAL
  | STATE
  | LANGUAGE
  | STATE_LANGUAGE
deriving Repr, DecidableEq

/-- One row of the `viral_index` collection. -/
structure RankEntry where
  viral_type : ViralType
  state : Option String
  language : Option String
  video_id : String
  rank : Nat
  score : ℚ
deriving Repr, DecidableEq

/-- Whether a video matches a segmentation key (GLOBAL matches
everything). -/
def matches_key (vt : ViralType) (st lang : Option String)
    (v : Video) : Bool :=
  match vt with
  | ViralType.GLOBAL => true
  | ViralType.STATE => st == some v.state
  | ViralType.LANGUAGE => lang == some v.language
  | ViralType.STATE_LANGUAGE => st == some v.state && lang == some v.language

/-- Modelled from the spec: `ViralEngine.update_viral_indices`
(`src/app/services/viral_engine.py` is referenced from
`src/app/main.py` but its source is not under `src/`).  Per spec §4.4,
for a segmentation key it selects all matching videos, sorts them by
descending `viralScore`, assigns dense ranks `1..K`, and replaces that
key's `RankEntry` set with the result. -/
def build_rank_entries (vt : ViralType) (st lang : Option String)
    (vids : List Video) : List RankEntry :=
  let sorted := sort_by_score_desc (vids.filter (matches_key vt st lang))
  sorted.enum.map (fun p =>
    { viral_type := vt, state := st, language := lang,
      video_id := p.2.video_id, rank := p.1 + 1, score := p.2.viral_score })

/-- The response shape produced by `_format_video` (`main.py`,
lines 144-155 and `feed_routes.py`, lines 18-29). -/
structure FormattedVideo where
  id : String
  title : String
  thumbnail : String
  channel : String
  views : Nat
  likes : Nat
  published_at : ℚ
  is_short : Bool
  duration : String
deriving Repr, DecidableEq

/-- `_format_video` (`main.py`, lines 144-155). -/
def format_video (v : Video) : FormattedVideo :=
  { id := v.video_id, title := v.title, thumbnail := v.thumbnail_url,
    channel := v.channel_title, views := v.view_count,
    likes := v.like_count, published_at := v.published_at,
    is_short := v.is_short, duration := v.duration }

/-- Python truthiness of an optional string parameter (absent or empty
string are falsy). -/
def py_truthy : Option String → Bool
  | none => false
  | some s => !s.isEmpty

namespace Main

/-- `get_feed` as actually mounted on the app (`main.py`, lines 97-125):
one combined personalized query using whichever of `state`/`language`
are provided, then a global fallback by descending viral score. -/
def get_feed (db : List Video) (state language : Option String)
    (limit : Nat) : List FormattedVideo :=
  let personalized :=
    if py_truthy state || py_truthy language then
      let q : Video → Bool := fun v =>
        (if py_truthy state then state == some v.state else true) &&
        (if py_truthy language then language == some v.language else true)
      (sort_by_score_desc (db.filter q)).take limit
    else []
  let videos :=
    if personalized.isEmpty then (sort_by_score_desc db).take limit
    else personalized
  videos.map format_video

end Main

namespace FeedRoutes

/-- `get_feed` from `feed_routes.py` (lines 31-89): the five-level
cascading fallback.  This router is never included by `main.py`, so this
handler is not mounted on the served app. -/
def get_feed (db : List Video) (state language : Option String)
    (limit : Nat) : List FormattedVideo :=
  let l1 :=
    if py_truthy state && py_truthy language then
      (sort_by_score_desc (db.filter (fun v =>
        state == some v.state && language == some v.language))).take limit
    else []
  let l2 :=
    if l1.isEmpty && py_truthy language then
      (sort_by_score_desc (db.filter (fun v =>
        language == some v.language))).take limit
    else l1
  let l3 :=
    if l2.isEmpty && py_truthy state then
      (sort_by_score_desc (db.filter (fun v =>
        state == some v.state))).take limit
    else l2
  let l4 := if l3.isEmpty then (sort_by_score_desc db).take limit else l3
  let l5 :=
    if l4.isEmpty then (sort_by_published_desc db).take limit else l4
  l5.map format_video

end FeedRoutes

/-- `comprehensive_fetch_job` (`main.py`, lines 34-56): the whole job
body runs inside `try`, and every `Exception` is caught and logged at
the job boundary.  The body's outcome is passed in as an `Except`
value; the job itself always completes normally. -/
def comprehensive_fetch_job (body : Except String Unit) :
    Except String Unit :=
  match body with
  | Except.ok u => Except.ok u
  | Except.error _ => Except.ok ()

/-- One row of the `api_key_usage` collection (`_initialize_keys`,
`youtube_service.py`, lines 23-28). `last_used` is modelled as a UTC
day index. -/
structure KeyState where
  api_key : String
  daily_quota_used : Nat
  is_active : Bool
  last_used_day : Nat
deriving Repr, DecidableEq

/-- The mutable state of a `YouTubeService` instance together with the
`api_key_usage` collection: the configured key list, the shared
rotation cursor, and the usage ledger. -/
structure ServiceState where
  api_keys : List String
  current_key_index : Nat
  db : List KeyState
deriving Repr, DecidableEq

/-- Mongo `update_one`: rewrite the first record matching the
predicate, leave everything else unchanged. -/
def updateFirst (p : KeyState → Bool) (f : KeyState → KeyState) :
    List KeyState → List KeyState
  | [] => []
  | c :: rest => if p c then f c :: rest else c :: updateFirst p f rest

/-- The filter `{"api_key": k, "is_active": True}` used by
`get_next_active_key` (`youtube_service.py`, line 44). -/
def key_active (k : String) (c : KeyState) : Bool :=
  c.api_key == k && c.is_active

/-- The lazy daily reset write (`youtube_service.py`, lines 52-55):
`$set` the used quota to 0 and `last_used` to now. -/
def reset_row (today : Nat) (c : KeyState) : KeyState :=
  { c with daily_quota_used := 0, last_used_day := today }

/-- The `increment_quota` write (`youtube_service.py`, lines 63-68):
`$inc` the used quota by `cost` and `$set` `last_used` to now. -/
def charge_row (today cost : Nat) (c : KeyState) : KeyState :=
  { c with daily_quota_used := c.daily_quota_used + cost,
           last_used_day := today }

/-- The loop body of `get_next_active_key` (`youtube_service.py`,
lines 40-58), scanning at most `n` credentials: read the key under the
cursor, advance the cursor, look its usage row up, lazily reset the
daily quota on a new day (updating the stored row's `last_used` but,
as in the source, only the in-memory copy's `daily_quota_used`), and
return the first row whose used quota is below `QUOTA_LIMIT`. -/
def scan_keys (today : Nat) : Nat → ServiceState →
    Option KeyState × ServiceState
  | 0, s => (none, s)
  | n + 1, s =>
    let key := s.api_keys.getD (s.current_key_index % s.api_keys.length) ""
    let s1 : ServiceState :=
      { s with current_key_index :=
          (s.current_key_index + 1) % s.api_keys.length }
    match s1.db.find? (key_active key) with
    | none => scan_keys today n s1
    | some usage =>
      if usage.last_used_day < today then
        let s2 : ServiceState :=
          { s1 with db := updateFirst (key_active key) (reset_row today) s1.db }
        let usage2 := { usage with daily_quota_used := 0 }
        if usage2.daily_quota_used < QUOTA_LIMIT then (some usage2, s2)
        else scan_keys today n s2
      else
        if usage.daily_quota_used < QUOTA_LIMIT then (some usage, s1)
        else scan_keys today n s1

/-- `YouTubeService.get_next_active_key` (`youtube_service.py`,
lines 31-60). -/
def get_next_active_key (today : Nat) (s : ServiceState) :
    Option KeyState × ServiceState :=
  if s.api_keys.isEmpty then (none, s)
  else scan_keys today s.api_keys.length s

/-- `YouTubeService.increment_quota` (`youtube_service.py`,
lines 62-69): `$inc` the used quota by `cost` and `$set` `last_used`
to now, on the row of the given credential. -/
def increment_quota (today : Nat) (k : String) (cost : Nat)
    (s : ServiceState) : ServiceState :=
  { s with db := updateFirst (key_active k) (charge_row today cost) s.db }

/-- A credential row that `get_next_active_key` could still return
today: active, and either due for the lazy daily reset or under
`QUOTA_LIMIT`. -/
def selectable (today : Nat) (c : KeyState) : Bool :=
  c.is_active && (decide (c.last_used_day < today) ||
                  decide (c.daily_quota_used < QUOTA_LIMIT))

/-- Number of still-selectable credential rows; the termination measure
for the quota-rejection retry recursion in `fetch_videos`. -/
def count_selectable (today : Nat) (db : List KeyState) : Nat :=
  (db.filter (selectable today)).length

/-- A search response: a raised exception (modelled as an environment
outcome), or an HTTP status together with the candidate video ids
parsed from the body. -/
inductive SearchResp where
  | exn
  | http (code : Nat) (ids : List String)
deriving Repr, DecidableEq

/-- A batch-detail response: a raised exception, or an HTTP status
together with the returned items. -/
inductive DetailResp where
  | exn
  | http (code : Nat) (items : List VideoItem)
deriving Repr, DecidableEq

/-- The content provider, as a function of the credential making the
call (within one `fetch_videos` run each credential is selected at
most once, so keying responses by credential loses no generality). -/
structure ProviderEnv where
  search : String → SearchResp
  detail : String → DetailResp

/-- The outcome of a `fetch_videos` run: the Python return value
(`some []` for every `return []`, `none` for falling off the end and
returning `None`), the final credential state, and the number of
quota-rejection retries taken. -/
structure FetchOutcome where
  result : Option (List String)
  state : ServiceState
  retries : Nat
deriving Repr, DecidableEq

/-- Fuel-indexed body of `YouTubeService.fetch_videos`
(`youtube_service.py`, lines 71-120).  The source recurses on itself
after a 403 quota rejection; here the recursion carries explicit fuel,
and `fetch_videos` below supplies enough fuel for the recursion never
to hit the fuel-exhaustion case (`fetch_fuel_congr`), which is the
source's implicit termination argument: every 403 exhausts the
selected credential. -/
def fetch_fuel (env : ProviderEnv) (today : Nat) :
    Nat → ServiceState → FetchOutcome
  | 0, s => { result := some [], state := s, retries := 0 }
  | n + 1, s =>
    match get_next_active_key today s with
    | (none, s0) => { result := some [], state := s0, retries := 0 }
    | (some u, s1) =>
      match env.search u.api_key with
      | SearchResp.exn => { result := some [], state := s1, retries := 0 }
      | SearchResp.http code ids =>
        if code = 403 then
          let s2 := increment_quota today u.api_key 10000 s1
          let r := fetch_fuel env today n s2
          { result := r.result, state := r.state, retries := r.retries + 1 }
        else
          let s2 := increment_quota today u.api_key 100 s1
          if code ≠ 200 then { result := some [], state := s2, retries := 0 }
          else if ids.isEmpty then
            { result := some [], state := s2, retries := 0 }
          else
            match env.detail u.api_key with
            | DetailResp.exn =>
              { result := some [], state := s2, retries := 0 }
            | DetailResp.http dcode _items =>
              let s3 := increment_quota today u.api_key 1 s2
              if dcode ≠ 200 then
                { result := some [], state := s3, retries := 0 }
              else { result := none, state := s3, retries := 0 }

/-- `YouTubeService.fetch_videos` (`youtube_service.py`,
lines 71-120), with fuel chosen above the retry bound. -/
def fetch_videos (env : ProviderEnv) (today : Nat) (s : ServiceState) :
    FetchOutcome :=
  fetch_fuel env today (count_selectable today s.db + 1) s

/-- The observation sequence for the round-robin fairness property:
the keys returned by `n` consecutive `get_next_active_key` calls with
no charging in between (calls that return no credential contribute
nothing). -/
def select_n (today : Nat) : Nat → ServiceState → List String
  | 0, _ => []
  | n + 1, s =>
    match get_next_active_key today s with
    | (some u, s1) => u.api_key :: select_n today n s1
    | (none, s0) => select_n today n s0

/-- A one-credential pool with a fresh key, for concrete runs of the
quota-rejection path. -/
def c1_key : KeyState :=
  { api_key := "k1", daily_quota_used := 0, is_active := true,
    last_used_day := 5 }

def c1_pool : ServiceState :=
  { api_keys := ["k1"], current_key_index := 0, db := [c1_key] }

/-- A provider that rejects every search call as over-quota (HTTP
403). -/
def env_quota_reject : ProviderEnv :=
  { search := fun _ => SearchResp.http 403 [],
    detail := fun _ => DetailResp.http 200 [] }

/-- A two-credential pool, all rows active and under quota. -/
def c3_pool : ServiceState :=
  { api_keys := ["a", "b"], current_key_index := 0,
    db := [{ api_key := "a", daily_quota_used := 0, is_active := true,
             last_used_day := 5 },
           { api_key := "b", daily_quota_used := 3, is_active := true,
             last_used_day := 5 }] }

/-- A credential row exhausted yesterday (quota = QUOTA_LIMIT,
last used on day 4). -/
def c4_row : KeyState :=
  { api_key := "a", daily_quota_used := 9500, is_active := true,
    last_used_day := 4 }

/-- A one-credential pool whose row was exhausted yesterday. -/
def c4_pool : ServiceState :=
  { api_keys := ["a"], current_key_index := 0, db := [c4_row] }

/-- A Kerala/Malayalam video with viral score 10. -/
def kerala_video : Video :=
  { video_id := "v1", title := "", description := "", channel_id := "",
    channel_title := "", niche := "", state := "Kerala",
    language := "Malayalam", published_at := 0, view_count := 0,
    like_count := 0, comment_count := 0, thumbnail_url := "",
    is_short := false, duration := "PT30S", viral_score := 10 }

/-- A Punjab/Punjabi video with viral score 20. -/
def punjab_video : Video :=
  { kerala_video with
      video_id := "v2", state := "Punjab", language := "Punjabi",
      viral_score := 20 }

/-! ### Helper lemmas about `updateFirst`, `find?` and `count_selectable` -/

theorem find?_decomp {p : KeyState → Bool} {l : List KeyState} {c : KeyState}
    (h : l.find? p = some c) :
    ∃ l1 l2, l = l1 ++ c :: l2 ∧ ∀ x ∈ l1, p x = false := by
  induction l with
  | nil => simp [List.find?] at h
  | cons a t ih =>
    by_cases ha : p a
    · refine ⟨[], t, ?_, by simp⟩
      simp [List.find?, ha] at h
      simp [h]
    · simp only [List.find?, Bool.not_eq_true] at ha h
      rw [ha] at h
      obtain ⟨l1, l2, rfl, hall⟩ := ih h
      exact ⟨a :: l1, l2, rfl, by
        intro x hx
        rcases List.mem_cons.mp hx with rfl | hx
        · exact ha
        · exact hall x hx⟩

theorem updateFirst_append_cons {p : KeyState → Bool} {f : KeyState → KeyState}
    {l1 l2 : List KeyState} {c : KeyState}
    (h1 : ∀ x ∈ l1, p x = false) (hc : p c = true) :
    updateFirst p f (l1 ++ c :: l2) = l1 ++ f c :: l2 := by
  induction l1 with
  | nil => simp [updateFirst, hc]
  | cons a t ih =>
    have ha : p a = false := h1 a (List.mem_cons_self a t)
    simp only [List.cons_append, updateFirst, ha, Bool.false_eq_true,
      if_false, List.cons.injEq, true_and]
    exact ih (fun x hx => h1 x (List.mem_cons_of_mem a hx))

theorem count_selectable_append (today : Nat) (l1 l2 : List KeyState) :
    count_selectable today (l1 ++ l2) =
      count_selectable today l1 + count_selectable today l2 := by
  simp [count_selectable, List.filter_append]

theorem count_selectable_cons (today : Nat) (c : KeyState) (l : List KeyState) :
    count_selectable today (c :: l) =
      (if selectable today c = true then 1 else 0) + count_selectable today l := by
  simp only [count_selectable, List.filter_cons]
  split <;> simp [Nat.add_comm]

theorem selectable_reset_row (today : Nat) (c : KeyState) :
    selectable today (reset_row today c) = c.is_active := by
  simp [selectable, reset_row, QUOTA_LIMIT]

theorem selectable_of_day_lt {today : Nat} {c : KeyState}
    (h : c.last_used_day < today) : selectable today c = c.is_active := by
  simp [selectable, h]

theorem selectable_charge_big (today cost : Nat) (c : KeyState)
    (hcost : QUOTA_LIMIT ≤ cost) :
    selectable today (charge_row today cost c) = false := by
  have : ¬ (c.daily_quota_used + cost < QUOTA_LIMIT) := by omega
  simp [selectable, charge_row, this]

theorem scan_keys_api_keys (today : Nat) :
    ∀ n s, ((scan_keys today n s).2).api_keys = s.api_keys := by
  intro n
  induction n with
  | zero => intro s; rfl
  | succ n ih =>
    intro s
    simp only [scan_keys]
    split
    · exact ih _
    · split
      · split
        · rfl
        · exact ih _
      · split
        · rfl
        · exact ih _

theorem count_updateFirst_reset {today : Nat} {p : KeyState → Bool}
    {db : List KeyState} {usage : KeyState}
    (hf : db.find? p = some usage) (hday : usage.last_used_day < today) :
    count_selectable today (updateFirst p (reset_row today) db) =
      count_selectable today db := by
  have hp : p usage = true := List.find?_some hf
  obtain ⟨l1, l2, rfl, hl1⟩ := find?_decomp hf
  rw [updateFirst_append_cons hl1 hp]
  simp [count_selectable_append, count_selectable_cons,
    selectable_reset_row, selectable_of_day_lt hday]

theorem scan_keys_count (today : Nat) :
    ∀ n s, count_selectable today ((scan_keys today n s).2).db =
      count_selectable today s.db := by
  intro n
  induction n with
  | zero => intro s; rfl
  | succ n ih =>
    intro s
    simp only [scan_keys]
    split
    · exact ih _
    · rename_i usage hf
      split
      · rename_i hday
        split
        · exact count_updateFirst_reset hf hday
        · exact (ih _).trans (count_updateFirst_reset hf hday)
      · split
        · rfl
        · exact ih _

theorem key_active_fields {k : String} {c : KeyState}
    (h : key_active k c = true) : c.api_key = k ∧ c.is_active = true := by
  simpa [key_active, Bool.and_eq_true, beq_iff_eq] using h

theorem scan_keys_some (today : Nat) :
    ∀ n s u s1, scan_keys today n s = (some u, s1) →
      ∃ l1 c l2, s1.db = l1 ++ c :: l2 ∧
        (∀ x ∈ l1, key_active u.api_key x = false) ∧
        key_active u.api_key c = true ∧
        selectable today c = true := by
  intro n
  induction n with
  | zero =>
    intro s u s1 h
    exact absurd h (by simp [scan_keys])
  | succ n ih =>
    intro s u s1 h
    simp only [scan_keys] at h
    split at h
    · exact ih _ _ _ h
    · rename_i usage hf
      have hp := List.find?_some hf
      obtain ⟨hkey, hact⟩ := key_active_fields hp
      split at h
      · rename_i hday
        split at h
        · rw [Prod.mk.injEq, Option.some.injEq] at h
          obtain ⟨hu, hs1⟩ := h
          subst hu
          subst hs1
          obtain ⟨l1, l2, hdb, hl1⟩ := find?_decomp hf
          refine ⟨l1, reset_row today usage, l2, ?_, ?_, ?_, ?_⟩
          · show updateFirst _ _ s.db = _
            rw [hdb]
            exact updateFirst_append_cons hl1 hp
          · intro x hx
            show key_active usage.api_key x = false
            rw [hkey]
            exact hl1 x hx
          · simp [key_active, reset_row, hact]
          · rw [selectable_reset_row]
            exact hact
        · exact ih _ _ _ h
      · split at h
        · rename_i hquota
          rw [Prod.mk.injEq, Option.some.injEq] at h
          obtain ⟨hu, hs1⟩ := h
          subst hu
          subst hs1
          obtain ⟨l1, l2, hdb, hl1⟩ := find?_decomp hf
          refine ⟨l1, usage, l2, hdb, ?_, ?_, ?_⟩
          · intro x hx
            show key_active usage.api_key x = false
            rw [hkey]
            exact hl1 x hx
          · simp [key_active, hact]
          · simp [selectable, hact, hquota]
        · exact ih _ _ _ h

theorem get_next_api_keys (today : Nat) (s : ServiceState) :
    ((get_next_active_key today s).2).api_keys = s.api_keys := by
  unfold get_next_active_key
  split
  · rfl
  · exact scan_keys_api_keys today _ s

theorem get_next_count (today : Nat) (s : ServiceState) :
    count_selectable today ((get_next_active_key today s).2).db =
      count_selectable today s.db := by
  unfold get_next_active_key
  split
  · rfl
  · exact scan_keys_count today _ s

theorem get_next_some_decomp {today : Nat} {s : ServiceState}
    {u : KeyState} {s1 : ServiceState}
    (h : get_next_active_key today s = (some u, s1)) :
    ∃ l1 c l2, s1.db = l1 ++ c :: l2 ∧
      (∀ x ∈ l1, key_active u.api_key x = false) ∧
      key_active u.api_key c = true ∧
      selectable today c = true := by
  unfold get_next_active_key at h
  split at h
  · simp at h
  · exact scan_keys_some today _ _ _ _ h

theorem fetch_measure_lt {today : Nat} {s : ServiceState}
    {u : KeyState} {s1 : ServiceState}
    (h : get_next_active_key today s = (some u, s1)) :
    count_selectable today
        ((increment_quota today u.api_key 10000 s1).db) <
      count_selectable today s.db := by
  obtain ⟨l1, c, l2, hdb, hl1, hc, hsel⟩ := get_next_some_decomp h
  have hcount1 : count_selectable today s1.db = count_selectable today s.db := by
    have h2 := get_next_count today s
    rw [h] at h2
    exact h2
  rw [← hcount1]
  show count_selectable today
    (updateFirst (key_active u.api_key) (charge_row today 10000) s1.db) < _
  rw [hdb, updateFirst_append_cons hl1 hc, count_selectable_append,
    count_selectable_append, count_selectable_cons, count_selectable_cons,
    hsel, selectable_charge_big today 10000 c (by norm_num [QUOTA_LIMIT])]
  simp only [if_true, Bool.false_eq_true, if_false]
  omega

theorem fetch_fuel_congr (env : ProviderEnv) (today : Nat) :
    ∀ n m s, count_selectable today s.db < n →
      count_selectable today s.db < m →
      fetch_fuel env today n s = fetch_fuel env today m s := by
  intro n
  induction n with
  | zero =>
    intro m s hn
    exact absurd hn (Nat.not_lt_zero _)
  | succ n ih =>
    intro m s hn hm
    obtain ⟨m1, rfl⟩ : ∃ m1, m = m1 + 1 := ⟨m - 1, by omega⟩
    simp only [fetch_fuel]
    cases hsel : get_next_active_key today s with
    | mk ou s2 =>
      cases ou with
      | none => rfl
      | some u =>
        have hlt := fetch_measure_lt hsel
        cases hsearch : env.search u.api_key with
        | exn => simp [hsearch]
        | http code ids =>
          by_cases hc : code = 403
          · subst hc
            have h1 : count_selectable today
                (increment_quota today u.api_key 10000 s2).db < n := by omega
            have h2 : count_selectable today
                (increment_quota today u.api_key 10000 s2).db < m1 := by omega
            simp [hsearch, ih _ _ h1 h2]
          · simp [hsearch, hc]

theorem fetch_videos_eq_fuel {env : ProviderEnv} {today n : Nat}
    {s : ServiceState} (h : count_selectable today s.db < n) :
    fetch_fuel env today n s = fetch_videos env today s :=
  fetch_fuel_congr env today n (count_selectable today s.db + 1) s h
    (Nat.lt_succ_self _)

theorem fetch_videos_403_step {env : ProviderEnv} {today : Nat}
    {s s1 : ServiceState} {u : KeyState} {ids : List String}
    (hsel : get_next_active_key today s = (some u, s1))
    (hsearch : env.search u.api_key = SearchResp.http 403 ids) :
    fetch_videos env today s =
      { result := (fetch_videos env today
          (increment_quota today u.api_key 10000 s1)).result,
        state := (fetch_videos env today
          (increment_quota today u.api_key 10000 s1)).state,
        retries := (fetch_videos env today
          (increment_quota today u.api_key 10000 s1)).retries + 1 } := by
  have hlt := fetch_measure_lt hsel
  show fetch_fuel env today (count_selectable today s.db + 1) s = _
  simp [fetch_fuel, hsel, hsearch, fetch_videos_eq_fuel hlt]

theorem fetch_fuel_retries_le (env : ProviderEnv) (today : Nat) :
    ∀ n s, count_selectable today s.db < n →
      (fetch_fuel env today n s).retries ≤ count_selectable today s.db := by
  intro n
  induction n with
  | zero =>
    intro s hn
    exact absurd hn (Nat.not_lt_zero _)
  | succ n ih =>
    intro s hn
    simp only [fetch_fuel]
    cases hsel : get_next_active_key today s with
    | mk ou s2 =>
      cases ou with
      | none => simp
      | some u =>
        have hlt := fetch_measure_lt hsel
        cases hsearch : env.search u.api_key with
        | exn => simp [hsearch]
        | http code ids =>
          by_cases hc : code = 403
          · subst hc
            have hih := ih (increment_quota today u.api_key 10000 s2)
              (by omega)
            simp [hsearch]
            omega
          · simp only [hsearch, hc, if_false, reduceIte]
            split
            · simp
            · split
              · simp
              · cases hdet : env.detail u.api_key with
                | exn => simp [hdet]
                | http dcode items =>
                  simp only [hdet]
                  split <;> simp

theorem fetch_videos_retries_le (env : ProviderEnv) (today : Nat)
    (s : ServiceState) :
    (fetch_videos env today s).retries ≤ count_selectable today s.db :=
  fetch_fuel_retries_le env today _ s (Nat.lt_succ_self _)

theorem count_selectable_le_length (today : Nat) (db : List KeyState) :
    count_selectable today db ≤ db.length :=
  List.length_filter_le _ _

/-- The hypothesis of the round-robin fairness property: every ledger
row is active and under quota, and every configured key has a ledger
row (as `_initialize_keys` guarantees). -/
def pool_ok (s : ServiceState) : Prop :=
  (∀ c ∈ s.db, c.is_active = true ∧ c.daily_quota_used < QUOTA_LIMIT) ∧
  (∀ k ∈ s.api_keys, ∃ c ∈ s.db, c.api_key = k)

theorem updateFirst_forall {p : KeyState → Bool} {f : KeyState → KeyState}
    {l : List KeyState} (P : KeyState → Prop) (h : ∀ c ∈ l, P c)
    (hf : ∀ c, P c → P (f c)) : ∀ c ∈ updateFirst p f l, P c := by
  induction l with
  | nil => simp [updateFirst]
  | cons a t ih =>
    intro c hc
    simp only [updateFirst] at hc
    split at hc
    · rcases List.mem_cons.mp hc with rfl | hc
      · exact hf a (h a (List.mem_cons_self a t))
      · exact h c (List.mem_cons_of_mem a hc)
    · rcases List.mem_cons.mp hc with rfl | hc
      · exact h c (List.mem_cons_self c t)
      · exact ih (fun x hx => h x (List.mem_cons_of_mem a hx)) c hc

theorem updateFirst_map_key {p : KeyState → Bool} {f : KeyState → KeyState}
    {l : List KeyState} (hf : ∀ c, (f c).api_key = c.api_key) :
    (updateFirst p f l).map (fun c => c.api_key) =
      l.map (fun c => c.api_key) := by
  induction l with
  | nil => rfl
  | cons a t ih =>
    simp only [updateFirst]
    split
    · simp [hf]
    · simp [ih]

theorem updateFirst_exists_key {p : KeyState → Bool}
    {f : KeyState → KeyState} {l : List KeyState} {k : String}
    (hf : ∀ c, (f c).api_key = c.api_key) (h : ∃ c ∈ l, c.api_key = k) :
    ∃ c ∈ updateFirst p f l, c.api_key = k := by
  have h1 : k ∈ l.map (fun c => c.api_key) := by
    obtain ⟨c, hc, rfl⟩ := h
    exact List.mem_map_of_mem _ hc
  rw [← @updateFirst_map_key p f l hf] at h1
  obtain ⟨c, hc, hk⟩ := List.mem_map.mp h1
  exact ⟨c, hc, hk⟩

theorem get_next_ok {today : Nat} {s : ServiceState} (hok : pool_ok s)
    (hne : s.api_keys ≠ []) :
    ∃ u s1, get_next_active_key today s = (some u, s1) ∧
      u.api_key =
        s.api_keys.getD (s.current_key_index % s.api_keys.length) "" ∧
      s1.api_keys = s.api_keys ∧
      s1.current_key_index = (s.current_key_index + 1) % s.api_keys.length ∧
      pool_ok s1 := by
  have hlen : 0 < s.api_keys.length := List.length_pos.mpr hne
  have hkmem :
      s.api_keys.getD (s.current_key_index % s.api_keys.length) "" ∈
        s.api_keys := by
    rw [List.getD_eq_getElem _ _ (Nat.mod_lt _ hlen)]
    exact List.getElem_mem _
  obtain ⟨c0, hc0mem, hc0key⟩ := hok.2 _ hkmem
  have hc0act := (hok.1 c0 hc0mem).1
  have hfind_some : (s.db.find? (key_active
      (s.api_keys.getD (s.current_key_index % s.api_keys.length) ""))).isSome := by
    rw [List.find?_isSome]
    exact ⟨c0, hc0mem, by simp [key_active, hc0key, hc0act]⟩
  obtain ⟨usage, hf⟩ := Option.isSome_iff_exists.mp hfind_some
  have husage_mem := List.mem_of_find?_eq_some hf
  have hp := List.find?_some hf
  obtain ⟨hukey, huact⟩ := key_active_fields hp
  have huquota := (hok.1 usage husage_mem).2
  obtain ⟨m, hL⟩ : ∃ m, s.api_keys.length = m + 1 :=
    ⟨s.api_keys.length - 1, by omega⟩
  unfold get_next_active_key
  rw [if_neg (by simp [List.isEmpty_iff, hne])]
  rw [show scan_keys today s.api_keys.length s = scan_keys today (m + 1) s by
    rw [hL]]
  simp only [scan_keys, hf]
  by_cases hday : usage.last_used_day < today
  · rw [if_pos hday]
    rw [if_pos (show ({ usage with daily_quota_used := 0 } :
        KeyState).daily_quota_used < QUOTA_LIMIT by
      simp [QUOTA_LIMIT])]
    refine ⟨{ usage with daily_quota_used := 0 }, _, rfl, ?_, rfl, rfl, ?_, ?_⟩
    · simpa using hukey
    · exact updateFirst_forall _ hok.1
        (fun c hc => ⟨by simp [reset_row, hc.1], by simp [reset_row, QUOTA_LIMIT]⟩)
    · intro k2 hk2
      exact updateFirst_exists_key (by simp [reset_row]) (hok.2 k2 hk2)
  · rw [if_neg hday, if_pos huquota]
    exact ⟨usage, _, rfl, hukey, rfl, rfl, hok⟩

theorem select_n_rotation (today : Nat) :
    ∀ n s, pool_ok s → s.api_keys ≠ [] →
      select_n today n s = (List.range n).map
        (fun j => s.api_keys.getD
          ((s.current_key_index + j) % s.api_keys.length) "") := by
  intro n
  induction n with
  | zero => intro s _ _; rfl
  | succ n ih =>
    intro s hok hne
    obtain ⟨u, s1, hsel, hkey, hkeys, hcur, hok1⟩ :=
      @get_next_ok today s hok hne
    have hne1 : s1.api_keys ≠ [] := by rw [hkeys]; exact hne
    simp only [select_n, hsel]
    rw [ih s1 hok1 hne1, hkeys, hcur]
    rw [List.range_succ_eq_map, List.map_cons, List.map_map, hkey]
    rw [List.cons.injEq]
    refine ⟨by rw [Nat.add_zero], List.map_congr_left ?_⟩
    intro j hj
    simp only [Function.comp]
    rw [Nat.mod_add_mod,
      show s.current_key_index + 1 + j = s.current_key_index + Nat.succ j by
        omega]

theorem rotation_map_perm (K : List String) (i : Nat) (hne : K ≠ []) :
    ((List.range K.length).map
      (fun j => K.getD ((i + j) % K.length) "")).Perm K := by
  have hlen : 0 < K.length := List.length_pos.mpr hne
  have heq : (List.range K.length).map
      (fun j => K.getD ((i + j) % K.length) "") = K.rotate i := by
    apply List.ext_getElem
    · simp [List.length_rotate]
    · intro j h1 h2
      rw [List.getElem_map, List.getElem_range, List.getElem_rotate,
        Nat.add_comm j i]
      rw [List.getD_eq_getElem _ _ (Nat.mod_lt _ hlen)]
  rw [heq]
  exact List.rotate_perm K i

theorem enumFrom_map_rank {α : Type} :
    ∀ (l : List α) (k : Nat),
      (l.enumFrom k).map (fun p => p.1 + 1) = List.range' (k + 1) l.length := by
  intro l
  induction l with
  | nil => intro k; rfl
  | cons a t ih =>
    intro k
    rw [List.enumFrom_cons, List.map_cons, List.length_cons,
      List.range'_succ _ _ 1, ih (k + 1)]

/-- Claim C7: for every ingested item, the stored video is flagged
short if and only if its duration token contains the seconds marker
`S` and no minutes marker `M`; the heuristic is exactly this textual
test from `youtube_service.py` line 146, not duration parsing. -/
theorem C7_short_flag (now : ℚ) (item : VideoItem)
    (niche st lang : String) :
    (process_video_item now item niche st lang).is_short = true ↔
      ('S' ∈ item.duration.toList ∧ 'M' ∉ item.duration.toList) := by
  show short_heuristic item.duration = true ↔ _
  simp [short_heuristic]

/-- Claim C8: after a rebuild, the rank entries stored for a
segmentation key with `K` matching videos carry exactly the ranks
`1..K`, in order, with no gaps and no duplicates (the rank list is
literally `[1, 2, ..., K]`). -/
theorem C8_rank_density (vt : ViralType) (st lang : Option String)
    (vids : List Video) :
    (build_rank_entries vt st lang vids).map (fun e => e.rank) =
      List.range' 1 ((vids.filter (matches_key vt st lang)).length) := by
  unfold build_rank_entries
  rw [List.map_map]
  show (List.enumFrom 0 _).map (fun p => p.1 + 1) = _
  rw [enumFrom_map_rank]
  simp [sort_by_score_desc, List.length_insertionSort]

/-- Claim C9: every exception inside an ingestion job run is caught at
the job boundary (`comprehensive_fetch_job` always completes
normally), and a feed query against an empty store returns the empty
list — from both the mounted `/feed` handler and the cascading
`feed_routes` handler. -/
theorem C9_job_boundary_and_empty_feed :
    (∀ body, comprehensive_fetch_job body = Except.ok ()) ∧
    (∀ state language limit,
      Main.get_feed [] state language limit = [] ∧
      FeedRoutes.get_feed [] state language limit = []) := by
  constructor
  · intro body
    cases body with
    | ok u => rfl
    | error e => rfl
  · intro state language limit
    have h1 : sort_by_score_desc [] = [] := rfl
    have h2 : sort_by_published_desc [] = [] := rfl
    constructor
    · simp [Main.get_feed, h1]
    · simp [FeedRoutes.get_feed, h1, h2]

/-- The viral-score formula exactly as Claim C5 and spec §4.3 word it
(claim-side definition, to be compared with the source-side
`calculate_viral_score`): `viewsPerHour * (1 + 10*engagementRatio)`,
with `ageHours = max(hours, 0.1)`, `engagementRatio = 0` for zero
views and `(likes + 2*comments)/views` otherwise, multiplied by `1.5`
for shorts and by `1.2` on a state/primary-language match. -/
def spec_viral_score (now : ℚ) (v : Video) : ℚ :=
  let ageHours := max ((now - v.published_at) / 3600) (1/10)
  let viewsPerHour := (v.view_count : ℚ) / ageHours
  let engagementRatio : ℚ :=
    if v.view_count = 0 then 0
    else ((v.like_count : ℚ) + 2 * (v.comment_count : ℚ)) / (v.view_count : ℚ)
  viewsPerHour * (1 + 10 * engagementRatio) *
    (if v.is_short then (3/2 : ℚ) else 1) *
    (if region_match v.state v.language then (6/5 : ℚ) else 1)

/-- The concrete video of Claim C5's example: 1000 views, 100 likes,
50 comments, published 10 hours before ingestion, not a short, no
state/language match. -/
def c5_example_video : Video :=
  { video_id := "c5", title := "", description := "", channel_id := "",
    channel_title := "", niche := "", state := "Goa", language := "Hindi",
    published_at := 0, view_count := 1000, like_count := 100,
    comment_count := 50, thumbnail_url := "", is_short := false,
    duration := "PT2M", viral_score := 0 }

/-- Claim C5: the viral score computed at ingestion time equals the
spec formula (engagement-boosted views per hour with the short and
region multipliers), and on the example — 1000 views, 100 likes, 50
comments, age 10 h, not short, no region match — it is 300. -/
theorem C5_viral_score_formula :
    (∀ now v, calculate_viral_score now v = spec_viral_score now v) ∧
    calculate_viral_score 36000 c5_example_video = 300 := by
  constructor
  · intro now v
    unfold calculate_viral_score spec_viral_score engagement_ratio
    by_cases hv : v.view_count = 0
    · simp only [hv, Nat.lt_irrefl, if_false, if_pos rfl, Nat.cast_zero,
        reduceIte]
      split <;> split <;> ring
    · have hpos : 0 < v.view_count := Nat.pos_of_ne_zero hv
      simp only [hv, hpos, if_true, if_false, reduceIte]
      split <;> split <;> ring
  · have hrm : region_match "Goa" "Hindi" = false := by decide
    unfold calculate_viral_score engagement_ratio c5_example_video
    norm_num [hrm]

theorem age_hours_pos (now p : ℚ) : 0 < max ((now - p) / 3600) (1/10) :=
  lt_of_lt_of_le (by norm_num) (le_max_right _ _)

theorem engagement_ratio_nonneg (v : Video) : 0 ≤ engagement_ratio v := by
  unfold engagement_ratio
  split
  · positivity
  · exact le_refl 0

/-- Claim C6 (amended): for fixed age, multipliers and engagement
ratio the score strictly increases with viewCount; and for fixed
positive viewCount and fixed age it strictly increases with likeCount
and with commentCount (at zero views the score is 0 regardless of
likes and comments, so positivity is required there). -/
theorem C6_amended :
    (∀ (now : ℚ) (v1 v2 : Video),
      v1.published_at = v2.published_at → v1.is_short = v2.is_short →
      v1.state = v2.state → v1.language = v2.language →
      engagement_ratio v1 = engagement_ratio v2 →
      v1.view_count < v2.view_count →
      calculate_viral_score now v1 < calculate_viral_score now v2) ∧
    (∀ (now : ℚ) (v : Video) (l1 l2 : Nat), 0 < v.view_count → l1 < l2 →
      calculate_viral_score now { v with like_count := l1 } <
        calculate_viral_score now { v with like_count := l2 }) ∧
    (∀ (now : ℚ) (v : Video) (c1 c2 : Nat), 0 < v.view_count → c1 < c2 →
      calculate_viral_score now { v with comment_count := c1 } <
        calculate_viral_score now { v with comment_count := c2 }) := by
  refine ⟨?_, ?_, ?_⟩
  · intro now v1 v2 hpub hshort hstate hlang her hview
    simp only [calculate_viral_score]
    rw [hpub, hshort, hstate, hlang, her]
    have hA := age_hours_pos now v2.published_at
    have hE : (0:ℚ) < 1 + engagement_ratio v2 * 10 := by
      have := engagement_ratio_nonneg v2
      linarith
    have hbase : (v1.view_count : ℚ) /
          max ((now - v2.published_at) / 3600) (1/10) *
          (1 + engagement_ratio v2 * 10) <
        (v2.view_count : ℚ) /
          max ((now - v2.published_at) / 3600) (1/10) *
          (1 + engagement_ratio v2 * 10) :=
      mul_lt_mul_of_pos_right
        (div_lt_div_of_pos_right (by exact_mod_cast hview) hA) hE
    split_ifs
    · exact mul_lt_mul_of_pos_right
        (mul_lt_mul_of_pos_right hbase (by norm_num)) (by norm_num)
    · exact mul_lt_mul_of_pos_right hbase (by norm_num)
    · exact mul_lt_mul_of_pos_right hbase (by norm_num)
    · exact hbase
  · intro now v l1 l2 hv hl
    simp only [calculate_viral_score, engagement_ratio, hv, if_true]
    have hA := age_hours_pos now v.published_at
    have hV : (0:ℚ) < (v.view_count : ℚ) := by exact_mod_cast hv
    have hfrac : ((l1 : ℚ) + (v.comment_count : ℚ) * 2) / (v.view_count : ℚ) <
        ((l2 : ℚ) + (v.comment_count : ℚ) * 2) / (v.view_count : ℚ) := by
      apply div_lt_div_of_pos_right _ hV
      have : (l1 : ℚ) < (l2 : ℚ) := by exact_mod_cast hl
      linarith
    have hbase : (v.view_count : ℚ) /
          max ((now - v.published_at) / 3600) (1/10) *
          (1 + ((l1 : ℚ) + (v.comment_count : ℚ) * 2) / (v.view_count : ℚ) * 10) <
        (v.view_count : ℚ) /
          max ((now - v.published_at) / 3600) (1/10) *
          (1 + ((l2 : ℚ) + (v.comment_count : ℚ) * 2) / (v.view_count : ℚ) * 10) := by
      apply mul_lt_mul_of_pos_left _ (div_pos hV hA)
      linarith
    split_ifs
    · exact mul_lt_mul_of_pos_right
        (mul_lt_mul_of_pos_right hbase (by norm_num)) (by norm_num)
    · exact mul_lt_mul_of_pos_right hbase (by norm_num)
    · exact mul_lt_mul_of_pos_right hbase (by norm_num)
    · exact hbase
  · intro now v c1 c2 hv hc
    simp only [calculate_viral_score, engagement_ratio, hv, if_true]
    have hA := age_hours_pos now v.published_at
    have hV : (0:ℚ) < (v.view_count : ℚ) := by exact_mod_cast hv
    have hfrac : ((v.like_count : ℚ) + (c1 : ℚ) * 2) / (v.view_count : ℚ) <
        ((v.like_count : ℚ) + (c2 : ℚ) * 2) / (v.view_count : ℚ) := by
      apply div_lt_div_of_pos_right _ hV
      have : (c1 : ℚ) < (c2 : ℚ) := by exact_mod_cast hc
      linarith
    have hbase : (v.view_count : ℚ) /
          max ((now - v.published_at) / 3600) (1/10) *
          (1 + ((v.like_count : ℚ) + (c1 : ℚ) * 2) / (v.view_count : ℚ) * 10) <
        (v.view_count : ℚ) /
          max ((now - v.published_at) / 3600) (1/10) *
          (1 + ((v.like_count : ℚ) + (c2 : ℚ) * 2) / (v.view_count : ℚ) * 10) := by
      apply mul_lt_mul_of_pos_left _ (div_pos hV hA)
      linarith
    split_ifs
    · exact mul_lt_mul_of_pos_right
        (mul_lt_mul_of_pos_right hbase (by norm_num)) (by norm_num)
    · exact mul_lt_mul_of_pos_right hbase (by norm_num)
    · exact mul_lt_mul_of_pos_right hbase (by norm_num)
    · exact hbase

/-- Claim C6 counterexample: at viewCount = 0 the viral score is 0 no
matter how many likes the video has, so the score does not strictly
increase with likeCount for every fixed viewCount and age. -/
theorem C6_counterexample :
    ({ kerala_video with like_count := 0 } : Video).view_count =
      ({ kerala_video with like_count := 1 } : Video).view_count ∧
    ({ kerala_video with like_count := 0 } : Video).like_count <
      ({ kerala_video with like_count := 1 } : Video).like_count ∧
    ¬ (calculate_viral_score 36000 { kerala_video with like_count := 0 } <
        calculate_viral_score 36000 { kerala_video with like_count := 1 }) := by
  have h0 : ∀ l : Nat,
      calculate_viral_score 36000 { kerala_video with like_count := l } = 0 := by
    intro l
    simp [calculate_viral_score, engagement_ratio, kerala_video]
  refine ⟨rfl, by norm_num, ?_⟩
  rw [h0 0, h0 1]
  simp

/-- Claim C2 counterexample: on the store [Kerala/Malayalam (score
10), Punjab/Punjabi (score 20)] with query state=Kerala,
language=Hindi, limit=5, the five-level cascade
(`FeedRoutes.get_feed`) stops at its state-only level and returns
only the Kerala video, but the served `/feed` handler
(`Main.get_feed`) returns the global viral list — so the served
`get_feed` does not answer via the five-level cascade. -/
theorem C2_counterexample :
    Main.get_feed [kerala_video, punjab_video]
        (some "Kerala") (some "Hindi") 5 =
      [format_video punjab_video, format_video kerala_video] ∧
    FeedRoutes.get_feed [kerala_video, punjab_video]
        (some "Kerala") (some "Hindi") 5 =
      [format_video kerala_video] := by
  decide

theorem take_sort_pub_nil {db : List Video} {limit : Nat}
    (h : (sort_by_score_desc db).take limit = []) :
    (sort_by_published_desc db).take limit = [] := by
  rcases List.take_eq_nil_iff.mp h with h0 | h0
  · rw [h0]
    simp
  · have hdb : db = [] := by
      have hlen := congrArg List.length h0
      simpa [sort_by_score_desc, List.length_insertionSort] using hlen
    rw [hdb]
    simp [sort_by_published_desc]

/-- Claim C2 (amended): the five-level cascade is implemented by
`feed_routes.get_feed`, which `main.py` never mounts; the served
`/feed` handler stops after two levels (one combined personalized
query, then global by descending viral score).  On a store containing
only Kerala/Malayalam videos, the query state=Goa, language=Hindi
returns — from the served handler and from the cascade handler alike —
exactly the global-viral result of an unfiltered query. -/
theorem C2_amended (db : List Video) (limit : Nat)
    (h : ∀ v ∈ db, v.state = "Kerala" ∧ v.language = "Malayalam") :
    Main.get_feed db (some "Goa") (some "Hindi") limit =
      Main.get_feed db none none limit ∧
    FeedRoutes.get_feed db (some "Goa") (some "Hindi") limit =
      Main.get_feed db none none limit := by
  have t1 : py_truthy (some "Goa") = true := rfl
  have t2 : py_truthy (some "Hindi") = true := rfl
  have t0 : py_truthy (none : Option String) = false := rfl
  have hfilA : db.filter (fun v =>
      (some "Goa" == some v.state) && (some "Hindi" == some v.language)) = [] := by
    rw [List.filter_eq_nil_iff]
    intro v hv
    simp [(h v hv).1]
  have hfilB : db.filter (fun v => some "Hindi" == some v.language) = [] := by
    rw [List.filter_eq_nil_iff]
    intro v hv
    simp [(h v hv).2]
  have hfilC : db.filter (fun v => some "Goa" == some v.state) = [] := by
    rw [List.filter_eq_nil_iff]
    intro v hv
    simp [(h v hv).1]
  have hsortnil : sort_by_score_desc [] = [] := rfl
  constructor
  · simp only [Main.get_feed, t1, t2, t0, Bool.true_or, Bool.or_self,
      if_true, if_false, reduceIte]
    rw [hfilA, hsortnil]
    simp
  · simp only [Main.get_feed, FeedRoutes.get_feed, t1, t2, t0,
      Bool.true_or, Bool.or_self, Bool.and_self, if_true, if_false,
      reduceIte]
    rw [hfilA, hfilB, hfilC, hsortnil]
    simp only [List.take_nil, List.isEmpty_nil, Bool.true_and, if_true,
      reduceIte]
    by_cases hG : ((sort_by_score_desc db).take limit).isEmpty
    · rw [if_pos hG]
      rw [take_sort_pub_nil (List.isEmpty_iff.mp hG), List.isEmpty_iff.mp hG]
      simp
    · rw [if_neg hG]
      simp

theorem fetch_fuel_result (env : ProviderEnv) (today : Nat) :
    ∀ n s, (fetch_fuel env today n s).result = some [] ∨
      (fetch_fuel env today n s).result = none := by
  intro n
  induction n with
  | zero => intro s; exact Or.inl rfl
  | succ n ih =>
    intro s
    simp only [fetch_fuel]
    cases hsel : get_next_active_key today s with
    | mk ou s2 =>
      cases ou with
      | none => exact Or.inl rfl
      | some u =>
        cases hsearch : env.search u.api_key with
        | exn => simp [hsearch]
        | http code ids =>
          by_cases hc : code = 403
          · subst hc
            simp only [hsearch, reduceIte]
            exact ih _
          · simp only [hsearch, hc, if_false, reduceIte]
            split
            · simp
            · split
              · simp
              · cases hdet : env.detail u.api_key with
                | exn => simp
                | http dcode items =>
                  simp only [hdet]
                  split <;> simp

/-- Claim C10: `fetch_videos` returns the empty list on every failure
path — no usable credential, an exception during the search call, a
non-success non-quota search response, a successful search with zero
candidate ids, an exception during the detail call, or a non-success
detail response — but on a fully successful fetch-and-upsert run
(search 200 with candidate ids, detail 200) it falls off the end and
returns Python `None` (modelled as `none`) rather than a list. -/
theorem C10_return_values (env : ProviderEnv) (today : Nat)
    (s : ServiceState) :
    ((fetch_videos env today s).result = some [] ∨
      (fetch_videos env today s).result = none) ∧
    (∀ s0, get_next_active_key today s = (none, s0) →
      (fetch_videos env today s).result = some []) ∧
    (∀ u s1, get_next_active_key today s = (some u, s1) →
      (env.search u.api_key = SearchResp.exn →
        (fetch_videos env today s).result = some []) ∧
      (∀ code ids, env.search u.api_key = SearchResp.http code ids →
        code ≠ 403 → code ≠ 200 →
        (fetch_videos env today s).result = some []) ∧
      (∀ ids, env.search u.api_key = SearchResp.http 200 ids →
        ids = [] → (fetch_videos env today s).result = some []) ∧
      (∀ ids, env.search u.api_key = SearchResp.http 200 ids → ids ≠ [] →
        (env.detail u.api_key = DetailResp.exn →
          (fetch_videos env today s).result = some []) ∧
        (∀ dcode items,
          env.detail u.api_key = DetailResp.http dcode items →
          dcode ≠ 200 → (fetch_videos env today s).result = some [])) ∧
      (∀ ids items, env.search u.api_key = SearchResp.http 200 ids →
        ids ≠ [] → env.detail u.api_key = DetailResp.http 200 items →
        (fetch_videos env today s).result = none)) := by
  refine ⟨fetch_fuel_result env today _ s, ?_, ?_⟩
  · intro s0 hsel
    show (fetch_fuel env today _ s).result = some []
    simp [fetch_fuel, hsel]
  · intro u s1 hsel
    refine ⟨?_, ?_, ?_, ?_, ?_⟩
    · intro hsearch
      show (fetch_fuel env today _ s).result = some []
      simp [fetch_fuel, hsel, hsearch]
    · intro code ids hsearch hc403 hc200
      show (fetch_fuel env today _ s).result = some []
      simp [fetch_fuel, hsel, hsearch, hc403, hc200]
    · intro ids hsearch hids
      subst hids
      show (fetch_fuel env today _ s).result = some []
      simp [fetch_fuel, hsel, hsearch]
    · intro ids hsearch hids
      have hids2 : ids.isEmpty = false := by
        simp [List.isEmpty_iff, hids]
      constructor
      · intro hdet
        show (fetch_fuel env today _ s).result = some []
        simp [fetch_fuel, hsel, hsearch, hids2, hdet]
      · intro dcode items hdet hdcode
        show (fetch_fuel env today _ s).result = some []
        simp [fetch_fuel, hsel, hsearch, hids2, hdet, hdcode]
    · intro ids items hsearch hids hdet
      have hids2 : ids.isEmpty = false := by
        simp [List.isEmpty_iff, hids]
      show (fetch_fuel env today _ s).result = none
      simp [fetch_fuel, hsel, hsearch, hids2, hdet]

/-- A provider whose search succeeds with one candidate id and whose
batch-detail call succeeds. -/
def env_success : ProviderEnv :=
  { search := fun _ => SearchResp.http 200 ["vid1"],
    detail := fun _ => DetailResp.http 200 [] }

/-- A provider whose search call raises an exception. -/
def env_search_exn : ProviderEnv :=
  { search := fun _ => SearchResp.exn,
    detail := fun _ => DetailResp.http 200 [] }

/-- A provider whose search call fails with a non-quota server
error. -/
def env_server_error : ProviderEnv :=
  { search := fun _ => SearchResp.http 500 [],
    detail := fun _ => DetailResp.http 200 [] }

/-- A provider whose search succeeds but yields zero candidate
ids. -/
def env_no_ids : ProviderEnv :=
  { search := fun _ => SearchResp.http 200 [],
    detail := fun _ => DetailResp.http 200 [] }

/-- A provider whose batch-detail call raises an exception. -/
def env_detail_exn : ProviderEnv :=
  { search := fun _ => SearchResp.http 200 ["vid1"],
    detail := fun _ => DetailResp.exn }

/-- A provider whose batch-detail call fails with a server error. -/
def env_detail_error : ProviderEnv :=
  { search := fun _ => SearchResp.http 200 ["vid1"],
    detail := fun _ => DetailResp.http 500 [] }

theorem C10_witness :
    get_next_active_key 5 c1_pool = (some c1_key, c1_pool) ∧
    (env_search_exn.search c1_key.api_key = SearchResp.exn ∧
      (fetch_videos env_search_exn 5 c1_pool).result = some []) ∧
    (env_server_error.search c1_key.api_key = SearchResp.http 500 [] ∧
      (500 : Nat) ≠ 403 ∧ (500 : Nat) ≠ 200 ∧
      (fetch_videos env_server_error 5 c1_pool).result = some []) ∧
    (env_no_ids.search c1_key.api_key = SearchResp.http 200 [] ∧
      (fetch_videos env_no_ids 5 c1_pool).result = some []) ∧
    (env_detail_exn.search c1_key.api_key = SearchResp.http 200 ["vid1"] ∧
      (["vid1"] : List String) ≠ [] ∧
      env_detail_exn.detail c1_key.api_key = DetailResp.exn ∧
      (fetch_videos env_detail_exn 5 c1_pool).result = some []) ∧
    (env_detail_error.search c1_key.api_key = SearchResp.http 200 ["vid1"] ∧
      env_detail_error.detail c1_key.api_key = DetailResp.http 500 [] ∧
      (500 : Nat) ≠ 200 ∧
      (fetch_videos env_detail_error 5 c1_pool).result = some []) ∧
    (env_success.search c1_key.api_key = SearchResp.http 200 ["vid1"] ∧
      env_success.detail c1_key.api_key = DetailResp.http 200 [] ∧
      (fetch_videos env_success 5 c1_pool).result = none) :=
  ⟨by decide,
   ⟨by decide,
    ((C10_return_values env_search_exn 5 c1_pool).2.2 c1_key c1_pool
      (by decide)).1 (by decide)⟩,
   ⟨by decide, by decide, by decide,
    ((C10_return_values env_server_error 5 c1_pool).2.2 c1_key c1_pool
      (by decide)).2.1 500 [] (by decide) (by decide) (by decide)⟩,
   ⟨by decide,
    ((C10_return_values env_no_ids 5 c1_pool).2.2 c1_key c1_pool
      (by decide)).2.2.1 [] (by decide) rfl⟩,
   ⟨by decide, by decide, by decide,
    (((C10_return_values env_detail_exn 5 c1_pool).2.2 c1_key c1_pool
      (by decide)).2.2.2.1 ["vid1"] (by decide) (by decide)).1 (by decide)⟩,
   ⟨by decide, by decide, by decide,
    (((C10_return_values env_detail_error 5 c1_pool).2.2 c1_key c1_pool
      (by decide)).2.2.2.1 ["vid1"] (by decide) (by decide)).2 500 []
      (by decide) (by decide)⟩,
   ⟨by decide, by decide,
    ((C10_return_values env_success 5 c1_pool).2.2 c1_key c1_pool
      (by decide)).2.2.2.2 ["vid1"] [] (by decide) (by decide) (by decide)⟩⟩

theorem C2_amended_witness :
    (∀ v ∈ [kerala_video], v.state = "Kerala" ∧ v.language = "Malayalam") ∧
    (Main.get_feed [kerala_video] (some "Goa") (some "Hindi") 5 =
        Main.get_feed [kerala_video] none none 5 ∧
      FeedRoutes.get_feed [kerala_video] (some "Goa") (some "Hindi") 5 =
        Main.get_feed [kerala_video] none none 5) :=
  ⟨by decide, C2_amended [kerala_video] 5 (by decide)⟩

/-- Claim C1 (amended): when the provider rejects a search call with
HTTP 403, `fetch_videos` charges the selected credential a flat
penalty of 10000 units — more than `QUOTA_LIMIT` = 9500, so the
credential is exhausted for the day — and retries the same logical
fetch with a freshly selected credential; the number of retries in a
run is bounded by the pool size. -/
theorem C1_amended (env : ProviderEnv) (today : Nat) (s : ServiceState) :
    (∀ u s1 ids, get_next_active_key today s = (some u, s1) →
      env.search u.api_key = SearchResp.http 403 ids →
      (fetch_videos env today s =
        { result := (fetch_videos env today
            (increment_quota today u.api_key 10000 s1)).result,
          state := (fetch_videos env today
            (increment_quota today u.api_key 10000 s1)).state,
          retries := (fetch_videos env today
            (increment_quota today u.api_key 10000 s1)).retries + 1 } ∧
       ∃ l1 c l2, s1.db = l1 ++ c :: l2 ∧ key_active u.api_key c = true ∧
         (increment_quota today u.api_key 10000 s1).db =
           l1 ++ charge_row today 10000 c :: l2 ∧
         QUOTA_LIMIT ≤ (charge_row today 10000 c).daily_quota_used)) ∧
    (fetch_videos env today s).retries ≤ s.db.length := by
  constructor
  · intro u s1 ids hsel hsearch
    refine ⟨fetch_videos_403_step hsel hsearch, ?_⟩
    obtain ⟨l1, c, l2, hdb, hl1, hc, hselc⟩ := get_next_some_decomp hsel
    refine ⟨l1, c, l2, hdb, hc, ?_, ?_⟩
    · show updateFirst _ _ s1.db = _
      rw [hdb]
      exact updateFirst_append_cons hl1 hc
    · simp only [charge_row, QUOTA_LIMIT]
      omega
  · exact (fetch_videos_retries_le env today s).trans
      (count_selectable_le_length today s.db)

/-- Claim C1 counterexample: on a fresh one-key pool a single
quota-rejected call leaves the credential charged 10000 units — not a
penalty equal to `QUOTA_LIMIT` = 9500 as the claim states. -/
theorem C1_counterexample :
    (fetch_videos env_quota_reject 5 c1_pool).state.db =
      [{ api_key := "k1", daily_quota_used := 10000, is_active := true,
         last_used_day := 5 }] ∧
    c1_key.daily_quota_used + 10000 ≠ c1_key.daily_quota_used + QUOTA_LIMIT := by
  decide

theorem C1_amended_witness :
    get_next_active_key 5 c1_pool = (some c1_key, c1_pool) ∧
    env_quota_reject.search c1_key.api_key = SearchResp.http 403 [] ∧
    (fetch_videos env_quota_reject 5 c1_pool =
      { result := (fetch_videos env_quota_reject 5
          (increment_quota 5 c1_key.api_key 10000 c1_pool)).result,
        state := (fetch_videos env_quota_reject 5
          (increment_quota 5 c1_key.api_key 10000 c1_pool)).state,
        retries := (fetch_videos env_quota_reject 5
          (increment_quota 5 c1_key.api_key 10000 c1_pool)).retries + 1 } ∧
     ∃ l1 c l2, c1_pool.db = l1 ++ c :: l2 ∧
       key_active c1_key.api_key c = true ∧
       (increment_quota 5 c1_key.api_key 10000 c1_pool).db =
         l1 ++ charge_row 5 10000 c :: l2 ∧
       QUOTA_LIMIT ≤ (charge_row 5 10000 c).daily_quota_used) :=
  ⟨by decide, by decide,
    (C1_amended env_quota_reject 5 c1_pool).1 c1_key c1_pool []
      (by decide) (by decide)⟩

/-- Claim C3: with every ledger row active and under quota and a row
for every configured key, N consecutive selector calls (N = pool
size) with no charging in between return each credential exactly
once. -/
theorem C3_round_robin (today : Nat) (s : ServiceState)
    (hok : pool_ok s) (hnodup : s.api_keys.Nodup) :
    ∀ k ∈ s.api_keys,
      (select_n today s.api_keys.length s).count k = 1 := by
  intro k hk
  have hne : s.api_keys ≠ [] := by
    intro h0
    rw [h0] at hk
    exact absurd hk (List.not_mem_nil k)
  rw [select_n_rotation today s.api_keys.length s hok hne]
  rw [(rotation_map_perm s.api_keys s.current_key_index hne).count_eq k]
  exact List.count_eq_one_of_mem hnodup hk

theorem C3_round_robin_witness :
    pool_ok c3_pool ∧ c3_pool.api_keys.Nodup ∧ "a" ∈ c3_pool.api_keys ∧
    (select_n 5 c3_pool.api_keys.length c3_pool).count "a" = 1 := by
  have hok : pool_ok c3_pool :=
    (by decide : (∀ c ∈ c3_pool.db, c.is_active = true ∧
        c.daily_quota_used < QUOTA_LIMIT) ∧
      ∀ k ∈ c3_pool.api_keys, ∃ c ∈ c3_pool.db, c.api_key = k)
  exact ⟨hok, by decide, by decide,
    C3_round_robin 5 c3_pool hok (by decide) "a" (by decide)⟩

/-- Claim C4: a credential whose `last_used` date precedes today and
whose used quota equals `QUOTA_LIMIT` is returned by the first
selector call that scans it on the new day, with its stored quota
reset to 0 and its stored `last_used` stamped to today before the
quota check. -/
theorem C4_daily_reset (today : Nat) (s : ServiceState) (c : KeyState)
    (hne : s.api_keys ≠ [])
    (hf : s.db.find? (key_active (s.api_keys.getD
      (s.current_key_index % s.api_keys.length) "")) = some c)
    (hday : c.last_used_day < today)
    (_hquota : c.daily_quota_used = QUOTA_LIMIT) :
    (get_next_active_key today s).1 = some { c with daily_quota_used := 0 } ∧
    ∃ l1 l2, s.db = l1 ++ c :: l2 ∧
      (get_next_active_key today s).2.db =
        l1 ++ reset_row today c :: l2 := by
  have hp := List.find?_some hf
  obtain ⟨m, hL⟩ : ∃ m, s.api_keys.length = m + 1 :=
    ⟨s.api_keys.length - 1, by
      have := List.length_pos.mpr hne
      omega⟩
  obtain ⟨l1, l2, hdb, hl1⟩ := find?_decomp hf
  unfold get_next_active_key
  rw [if_neg (by simp [List.isEmpty_iff, hne])]
  rw [show scan_keys today s.api_keys.length s = scan_keys today (m + 1) s by
    rw [hL]]
  simp only [scan_keys, hf]
  rw [if_pos hday]
  rw [if_pos (show ({ c with daily_quota_used := 0 } :
      KeyState).daily_quota_used < QUOTA_LIMIT by simp [QUOTA_LIMIT])]
  refine ⟨rfl, l1, l2, hdb, ?_⟩
  show updateFirst _ _ s.db = _
  rw [hdb]
  exact updateFirst_append_cons hl1 hp

theorem C4_daily_reset_witness :
    c4_pool.api_keys ≠ [] ∧
    c4_pool.db.find? (key_active (c4_pool.api_keys.getD
      (c4_pool.current_key_index % c4_pool.api_keys.length) "")) =
      some c4_row ∧
    c4_row.last_used_day < 5 ∧
    c4_row.daily_quota_used = QUOTA_LIMIT ∧
    ((get_next_active_key 5 c4_pool).1 =
        some { c4_row with daily_quota_used := 0 } ∧
      ∃ l1 l2, c4_pool.db = l1 ++ c4_row :: l2 ∧
        (get_next_active_key 5 c4_pool).2.db =
          l1 ++ reset_row 5 c4_row :: l2) :=
  ⟨by decide, by decide, by decide, by decide,
    C4_daily_reset 5 c4_pool c4_row (by decide) (by decide) (by decide)
      (by decide)⟩

/-- A 100-view video with no likes or comments. -/
def c6_video_a : Video := { kerala_video with view_count := 100 }

/-- A 200-view video with no likes or comments. -/
def c6_video_b : Video := { kerala_video with view_count := 200 }

theorem C6_amended_witness :
    (c6_video_a.published_at = c6_video_b.published_at ∧
      c6_video_a.is_short = c6_video_b.is_short ∧
      c6_video_a.state = c6_video_b.state ∧
      c6_video_a.language = c6_video_b.language ∧
      engagement_ratio c6_video_a = engagement_ratio c6_video_b ∧
      c6_video_a.view_count < c6_video_b.view_count ∧
      calculate_viral_score 36000 c6_video_a <
        calculate_viral_score 36000 c6_video_b) ∧
    (0 < c6_video_b.view_count ∧ (0 : Nat) < 1 ∧
      calculate_viral_score 36000 { c6_video_b with like_count := 0 } <
        calculate_viral_score 36000 { c6_video_b with like_count := 1 }) ∧
    (0 < c6_video_b.view_count ∧ (0 : Nat) < 1 ∧
      calculate_viral_score 36000 { c6_video_b with comment_count := 0 } <
        calculate_viral_score 36000 { c6_video_b with comment_count := 1 }) := by
  have her : engagement_ratio c6_video_a = engagement_ratio c6_video_b := by
    simp [engagement_ratio, c6_video_a, c6_video_b, kerala_video]
  refine ⟨⟨rfl, rfl, rfl, rfl, her, by decide,
      C6_amended.1 36000 c6_video_a c6_video_b rfl rfl rfl rfl her
        (by decide)⟩,
    ⟨by decide, by decide,
      C6_amended.2.1 36000 c6_video_b 0 1 (by decide) (by decide)⟩,
    ⟨by decide, by decide,
      C6_amended.2.2 36000 c6_video_b 0 1 (by decide) (by decide)⟩⟩
